import Mathlib

/-!
Shallow embedding of `src/orchestrator.py` (Multi-Cloud Terraform Orchestrator).

Python JSON values are modelled by `Value`; Python `dict`s by ordered
association lists with unique keys (`Obj`), with the operations `dlookup`,
`dinsert`, `dpop`, `dmerge` reproducing `d[k]`, `d[k] = v`, `d.pop(k, None)`
and `{**a, **b}` respectively.  The process working directory is modelled by a
stack of path components (`Cwd`); subprocess invocations are an oracle mapping
a command line to whether it exits zero; the file system outside the generated
files is modelled by the list of existing module directories.  Python
exceptions that the program can raise are the `PyError` type: `ValueError`
raised by `load_parameters` for a missing environment is the constructor
`environmentNotFound`; `KeyError` from a missing mandatory dictionary key is
`keyError`; `TypeError`/`AttributeError` from values of unexpected shape are
collapsed into `typeError` (which of the two Python raises is not relevant to
any property below).  OS-level write failures are outside the model: writing a
generated file always succeeds.
-/

set_option autoImplicit false

namespace Orchestrator

/-- JSON-like values as decoded by `json.load`. -/
inductive Value where
  | vNull : Value
  | vBool : Bool → Value
  | vInt : Int → Value
  | vStr : String → Value
  | vArr : List Value → Value
  | vObj : List (String × Value) → Value

/-- A Python `dict` decoded from JSON: ordered key/value pairs. -/
abbrev Obj := List (String × Value)

/-- Python exceptions the orchestrator can raise. -/
inductive PyError where
  | keyError : PyError
  | typeError : PyError
  | environmentNotFound : String → PyError
deriving DecidableEq

/-- `d[k]` / `d.get(k)`: the value at the first occurrence of key `k`. -/
def dlookup : Obj → String → Option Value
  | [], _ => none
  | (k, v) :: t, key => if k = key then some v else dlookup t key

/-- `d.get(k, default)`. -/
def dgetD (d : Obj) (key : String) (default : Value) : Value :=
  (dlookup d key).getD default

/-- `d[k] = v`: replace the value at an existing key in place, else append. -/
def dinsert : Obj → String → Value → Obj
  | [], key, v => [(key, v)]
  | (k, w) :: t, key, v =>
    if k = key then (key, v) :: t else (k, w) :: dinsert t key v

/-- `d.pop(k, None)`: drop the entry at key `k` if present. -/
def dpop : Obj → String → Obj
  | [], _ => []
  | (k, w) :: t, key => if k = key then t else (k, w) :: dpop t key

/-- `{**a, **b}`: start from `a` and write every entry of `b` over it. -/
def dmerge (a b : Obj) : Obj :=
  b.foldl (fun acc kv => dinsert acc kv.1 kv.2) a

/-- The keys of a dictionary, in order. -/
def dkeys (d : Obj) : List String := d.map Prod.fst

/-- Python truthiness of a JSON value. -/
def truthy : Value → Bool
  | .vNull => false
  | .vBool b => b
  | .vInt n => decide (n ≠ 0)
  | .vStr s => decide (s ≠ "")
  | .vArr xs => !xs.isEmpty
  | .vObj fs => !fs.isEmpty

mutual

/-- Python `repr` of a JSON value (used by `str` on containers). -/
def pyRepr : Value → String
  | .vNull => "None"
  | .vBool b => cond b "True" "False"
  | .vInt n => toString n
  | .vStr s => "\x27" ++ s ++ "\x27"
  | .vArr xs => "[" ++ String.intercalate ", " (pyReprList xs) ++ "]"
  | .vObj fs => "\x7b" ++ String.intercalate ", " (pyReprFields fs) ++ "\x7d"

/-- `repr` of the elements of a list. -/
def pyReprList : List Value → List String
  | [] => []
  | x :: xs => pyRepr x :: pyReprList xs

/-- `repr` of the entries of a dictionary. -/
def pyReprFields : List (String × Value) → List String
  | [] => []
  | (k, v) :: fs => ("\x27" ++ k ++ "\x27: " ++ pyRepr v) :: pyReprFields fs

end

/-- Python `str` of a JSON value, as used by f-string interpolation. -/
def pyStr : Value → String
  | .vStr s => s
  | v => pyRepr v

/--
`load_parameters` (orchestrator.py lines 24-32): decode the parameters
document, then look the requested environment up under `environments`.
`ValueError(f"Environment ... not found")` is `environmentNotFound`.
-/
def load_parameters (doc : Value) (env : String) : Except PyError Value :=
  match doc with
  | .vObj data =>
    match dlookup data "environments" with
    | none => .error .keyError
    | some (.vObj envs) =>
      match dlookup envs env with
      | none => .error (.environmentNotFound env)
      | some v => .ok v
    | some _ => .error .typeError
  | _ => .error .typeError

/--
`generate_tfvars` (orchestrator.py lines 34-50): shallow-merge `common` with
the cloud-scoped parameters, pop the metadata keys `modules` and `enabled`,
and add the module configuration under `module_config` when it is truthy.
A missing `common` or cloud key is a `KeyError`; a non-dict value there makes
the copy or the merge raise (`typeError`).
-/
def generate_tfvars (params : Obj) (cloud : String) (module_config : Value) :
    Except PyError Obj :=
  match dlookup params "common" with
  | none => .error .keyError
  | some cv =>
    match dlookup params cloud with
    | none => .error .keyError
    | some (.vObj cloud_params) =>
      match cv with
      | .vObj common =>
        let tfvars := dmerge common cloud_params
        let tfvars := dpop tfvars "modules"
        let tfvars := dpop tfvars "enabled"
        let tfvars :=
          if truthy module_config then
            dinsert tfvars "module_config" module_config
          else tfvars
        .ok tfvars
      | _ => .error .typeError
    | some _ => .error .typeError

/-- One `key = value` line of the backend file (orchestrator.py lines 96-100). -/
def renderLine (key : String) (v : Value) : String :=
  match v with
  | .vBool b => key ++ " = " ++ cond b "true" "false"
  | _ => key ++ " = \"" ++ pyStr v ++ "\""

/-- The lines of `backend.hcl`, in dictionary order. -/
def renderBackend (hcl : Obj) : List String :=
  hcl.map fun kv => renderLine kv.1 kv.2

/--
`write_backend_config` (orchestrator.py lines 63-103): when the `backend`
section is present and `enabled` is truthy, build the `backend_hcl`
descriptor and the path of the file it is written to; otherwise return
`none`.  The state key is `{cloud}/{env}/terraform.tfstate` and the optional
`dynamodb_table` / `profile` / `kms_key_id` entries are copied verbatim when
present.  A missing `s3_bucket` or `s3_region` is a `KeyError`.
-/
def write_backend_config (params : Obj) (cloud module env : String) :
    Except PyError (Option (String × Obj)) :=
  match dlookup params "backend" with
  | some (.vArr _) => .error .typeError
  | some (.vStr _) => .error .typeError
  | some (.vBool _) => .error .typeError
  | some (.vInt _) => .error .typeError
  | some .vNull => .error .typeError
  | bsec =>
    let backend_config : Obj :=
      match bsec with
      | some (.vObj b) => b
      | _ => []
    if truthy (dgetD backend_config "enabled" (.vBool false)) then
      match dlookup backend_config "s3_bucket" with
      | none => .error .keyError
      | some bucket =>
        match dlookup backend_config "s3_region" with
        | none => .error .keyError
        | some region =>
          let state_key := cloud ++ "/" ++ env ++ "/terraform.tfstate"
          let backend_hcl : Obj :=
            [("bucket", bucket),
             ("key", .vStr state_key),
             ("region", region),
             ("encrypt", dgetD backend_config "encrypt" (.vBool true)),
             ("workspace_key_prefix", .vStr (cloud ++ "/" ++ env))]
          let backend_hcl :=
            match dlookup backend_config "dynamodb_table" with
            | some v => dinsert backend_hcl "dynamodb_table" v
            | none => backend_hcl
          let backend_hcl :=
            match dlookup backend_config "profile" with
            | some v => dinsert backend_hcl "profile" v
            | none => backend_hcl
          let backend_hcl :=
            match dlookup backend_config "kms_key_id" with
            | some v => dinsert backend_hcl "kms_key_id" v
            | none => backend_hcl
          .ok (some (cloud ++ "/" ++ module ++ "/backend.hcl", backend_hcl))
    else
      .ok none

/-- The requested terraform action (argparse restricts to these three). -/
inductive Action where
  | plan : Action
  | apply : Action
  | destroy : Action

/-- Status of a module result. -/
inductive Status where
  | success : Status
  | failed : Status
  | skipped : Status
deriving DecidableEq

/-- One module result dictionary (orchestrator.py lines 122, 166, 170). -/
structure TfResult where
  status : Status
  reason : Option String := none
  cloud : Option String := none
  module : Option String := none
  error : Option String := none

/-- The process working directory, as a stack of path components. -/
abbrev Cwd := List String

/-- One component of a relative `os.chdir`. -/
def chdirComp (c : Cwd) (comp : String) : Cwd :=
  if comp = "." then c
  else if comp = ".." then c.dropLast
  else c ++ [comp]

/-- Split a character list at every `/` (helper for `pathComps`). -/
def splitComps : List Char → List Char → List String
  | [], cur => [String.mk cur.reverse]
  | c :: t, cur =>
    if c = '/' then String.mk cur.reverse :: splitComps t []
    else splitComps t (c :: cur)

/-- The `/`-separated components of a relative path, as `os.chdir` walks
them. -/
def pathComps (s : String) : List String :=
  splitComps s.data []

/-- The command line of the init step (orchestrator.py lines 132-137). -/
def initCmd (backendFileWritten : Bool) : List String :=
  ["terraform", "init"] ++
    (if backendFileWritten then ["-backend-config=backend.hcl"] else [])

/-- The command line of the validate step (orchestrator.py line 144). -/
def validateCmd : List String := ["terraform", "validate"]

/-- The command line of the action step (orchestrator.py lines 147-164). -/
def actionCmd : Action → List String
  | .plan => ["terraform", "plan", "-out=tfplan"]
  | .apply => ["terraform", "apply", "-auto-approve"]
  | .destroy => ["terraform", "destroy", "-auto-approve"]

/-- `str(e)` of the `CalledProcessError` raised for a failing command
(every non-zero exit status is collapsed to 1 in the model, since the code
only distinguishes zero from non-zero). -/
def cmdError (cmd : List String) : String :=
  "Command \x27[" ++
    String.intercalate ", " (cmd.map fun c => "\x27" ++ c ++ "\x27") ++
    "]\x27 returned non-zero exit status 1."

/-- The failed-module result (orchestrator.py line 170). -/
def failedResult (cloud module : String) (cmd : List String) : TfResult :=
  { status := .failed, cloud := some cloud, module := some module,
    error := some (cmdError cmd) }

/-- What a call to `run_terraform` produces: the result dictionary, the
process working directory after the call, and the commands invoked. -/
structure RTOut where
  result : TfResult
  cwd : Cwd
  steps : List (List String)

/--
`run_terraform` (orchestrator.py lines 116-172).  `dirExists` is whether
`Path(cloud)/module` exists; `backendFileWritten` whether `backend.hcl`
exists in the module directory; `ok` maps a command line to whether the
subprocess exits zero.  When the directory exists the runner changes into it
(components of the relative path `cloud/module`), runs init, validate and the
action step in order with `check=True`, stops at the first non-zero exit
(`CalledProcessError`, caught as a failed result), and on every one of those
paths the `finally` block runs `os.chdir("../..")`.
-/
def run_terraform (dirExists backendFileWritten : Bool)
    (ok : List String → Bool) (action : Action) (cloud module : String)
    (cwd0 : Cwd) : RTOut :=
  if !dirExists then
    ⟨{ status := .skipped, reason := some "path_not_found" }, cwd0, []⟩
  else
    let comps := pathComps cloud ++ pathComps module
    let cwd1 := comps.foldl chdirComp cwd0
    let cwdFinal := chdirComp (chdirComp cwd1 "..") ".."
    let ic := initCmd backendFileWritten
    let rs : TfResult × List (List String) :=
      if !ok ic then (failedResult cloud module ic, [ic])
      else if !ok validateCmd then
        (failedResult cloud module validateCmd, [ic, validateCmd])
      else if !ok (actionCmd action) then
        (failedResult cloud module (actionCmd action),
         [ic, validateCmd, actionCmd action])
      else
        ({ status := .success, cloud := some cloud, module := some module },
         [ic, validateCmd, actionCmd action])
    ⟨rs.1, cwdFinal, rs.2⟩

/-- Content of a generated file: a JSON dump or line-oriented text. -/
inductive FileContent where
  | json : Obj → FileContent
  | text : List String → FileContent

/-- Mutable state threaded through the orchestration loop. -/
structure OState where
  files : List (String × FileContent)
  results : List (String × TfResult)
  cwd : Cwd

/-- How the process ends. -/
inductive Outcome where
  | normal : Nat → Outcome
  | uncaught : PyError → Outcome

/-- Everything observable about one run. -/
structure RunOut where
  files : List (String × FileContent)
  results : List (String × TfResult)
  summaryPrinted : Bool
  outcome : Outcome
  cwd : Cwd

/-- `if self.selected_clouds and cloud not in self.selected_clouds`
(orchestrator.py line 190; an empty selection list is falsy). -/
def filteredOut (sel : Option (List String)) (x : String) : Bool :=
  match sel with
  | none => false
  | some l => !l.isEmpty && !l.contains x

/-- Normalization of the `modules` entry (orchestrator.py lines 204-207):
a mapping is taken as is, a legacy list of module names becomes a mapping to
empty configs, anything else fails at `.items()`. -/
def normalizeModules : Value → Except PyError (List (String × Value))
  | .vObj ml => .ok ml
  | .vArr l =>
    l.mapM fun v =>
      match v with
      | .vStr s => .ok (s, Value.vObj [])
      | _ => .error PyError.typeError
  | _ => .error .typeError

/-- `print_summary` (orchestrator.py lines 236-256) as an exit code:
`sys.exit(1)` when any recorded result failed, otherwise the process falls
through `main` and exits 0. -/
def print_summary (results : List (String × TfResult)) : Nat :=
  if 0 < results.countP (fun r => decide (r.2.status = Status.failed)) then 1
  else 0

/-- The loop body for one module (orchestrator.py lines 213-232): apply the
module filter, generate and write the tfvars file, write the backend config
when applicable, run terraform and record the result.  An exception escapes
with the state reached so far. -/
def processModule (params : Obj) (env : String) (action : Action)
    (selModules : Option (List String)) (fs : List String)
    (orc : String → String → List String → Bool) (cloud : String)
    (st : OState) (m : String × Value) : Except (PyError × OState) OState :=
  if filteredOut selModules m.1 then .ok st
  else
    match generate_tfvars params cloud m.2 with
    | .error e => .error (e, st)
    | .ok tfvars =>
      let st : OState :=
        { st with
          files := st.files ++
            [(cloud ++ "/" ++ m.1 ++ "/terraform.tfvars.json", .json tfvars)] }
      match write_backend_config params cloud m.1 env with
      | .error e => .error (e, st)
      | .ok obcfg =>
        let st : OState :=
          match obcfg with
          | some (path, hcl) =>
            { st with files := st.files ++ [(path, .text (renderBackend hcl))] }
          | none => st
        let r := run_terraform (fs.contains (cloud ++ "/" ++ m.1)) obcfg.isSome
          (orc cloud m.1) action cloud m.1 st.cwd
        .ok { st with
          results := st.results ++ [(cloud ++ "/" ++ m.1, r.result)],
          cwd := r.cwd }

/-- The loop body for one cloud (orchestrator.py lines 188-232). -/
def processCloud (params : Obj) (env : String) (action : Action)
    (selClouds selModules : Option (List String)) (fs : List String)
    (orc : String → String → List String → Bool)
    (st : OState) (cloud : String) : Except (PyError × OState) OState :=
  if filteredOut selClouds cloud then .ok st
  else
    match dlookup params cloud with
    | none => .ok st
    | some (.vObj cloud_config) =>
      if !truthy (dgetD cloud_config "enabled" (.vBool true)) then .ok st
      else
        match normalizeModules (dgetD cloud_config "modules" (.vObj [])) with
        | .error e => .error (e, st)
        | .ok modules =>
          modules.foldlM (processModule params env action selModules fs orc cloud) st
    | some _ => .error (.typeError, st)

/-- `orchestrate` (orchestrator.py lines 174-234): iterate the fixed cloud
list, record results, and print the summary at the end; an uncaught exception
aborts the run with whatever was written and recorded so far and no summary. -/
def orchestrate (params : Obj) (env : String) (action : Action)
    (selClouds selModules : Option (List String)) (fs : List String)
    (orc : String → String → List String → Bool) (cwd0 : Cwd) : RunOut :=
  match ["aws", "azure", "gcp"].foldlM
      (processCloud params env action selClouds selModules fs orc)
      (⟨[], [], cwd0⟩ : OState) with
  | .ok st => ⟨st.files, st.results, true, .normal (print_summary st.results), st.cwd⟩
  | .error (e, st) => ⟨st.files, st.results, false, .uncaught e, st.cwd⟩

/-- A whole run of the tool (`main`, orchestrator.py lines 258-318):
construct the orchestrator — which loads the parameters — then orchestrate.
A load failure escapes before anything is written.  An environment
configuration that is not a mapping fails at its first dictionary access. -/
def runOrchestrator (doc : Value) (env : String) (action : Action)
    (selClouds selModules : Option (List String)) (fs : List String)
    (orc : String → String → List String → Bool) (cwd0 : Cwd) : RunOut :=
  match load_parameters doc env with
  | .error e => ⟨[], [], false, .uncaught e, cwd0⟩
  | .ok (.vObj params) => orchestrate params env action selClouds selModules fs orc cwd0
  | .ok _ => ⟨[], [], false, .uncaught .typeError, cwd0⟩

/--
Modelled from the spec: the source under `src/` contains no automated-pipeline
detection, so the recognized signals (a generic CI flag plus flags of named CI
providers, truthy when set to a non-empty value other than `"false"`/`"0"`)
are taken from the specification text.  `environ` is the process environment.
-/
def ciDetected (environ : List (String × String)) : Bool :=
  ["CI", "GITHUB_ACTIONS", "GITLAB_CI", "CIRCLECI", "TRAVIS", "JENKINS_URL"].any
    fun k =>
      match environ.lookup k with
      | some v => v ≠ "" && v ≠ "false" && v ≠ "0"
      | none => false

/-- A configuration used to evaluate the functions at a concrete input:
an environment with a credential profile in `common` and in `backend`. -/
def sampleParams : Obj :=
  [("common", .vObj [("region", .vStr "us-east-1"), ("profile", .vStr "dev-profile")]),
   ("aws", .vObj [("enabled", .vBool true), ("instance_type", .vStr "t3.micro"),
                  ("modules", .vObj [("network", .vObj [])])]),
   ("backend", .vObj [("enabled", .vBool true), ("s3_bucket", .vStr "tf-state"),
                      ("s3_region", .vStr "us-east-1"), ("profile", .vStr "dev-profile")])]

/-! ### Dictionary lemmas -/

theorem dlookup_dinsert (d : Obj) (k : String) (v : Value) (key : String) :
    dlookup (dinsert d k v) key = if k = key then some v else dlookup d key := by
  induction d with
  | nil => simp [dinsert, dlookup]
  | cons a t ih =>
    obtain ⟨ak, av⟩ := a
    by_cases hak : ak = k
    · subst hak
      by_cases hk : ak = key <;> simp [dinsert, dlookup, hk]
    · by_cases hk : ak = key
      · subst hk
        simp [dinsert, dlookup, hak, Ne.symm hak]
      · simp [dinsert, dlookup, hak, hk, ih]

theorem dlookup_eq_none_iff (d : Obj) (key : String) :
    dlookup d key = none ↔ key ∉ dkeys d := by
  induction d with
  | nil => simp [dlookup, dkeys]
  | cons a t ih =>
    obtain ⟨ak, av⟩ := a
    by_cases hk : ak = key
    · subst hk
      simp [dlookup, dkeys]
    · simp [dlookup, dkeys, hk, ih, Ne.symm hk]

theorem dkeys_nil : dkeys [] = [] := rfl

theorem dkeys_cons (k : String) (v : Value) (t : Obj) :
    dkeys ((k, v) :: t) = k :: dkeys t := rfl

theorem dkeys_dinsert (d : Obj) (k : String) (v : Value) :
    dkeys (dinsert d k v) = if k ∈ dkeys d then dkeys d else dkeys d ++ [k] := by
  induction d with
  | nil => simp [dinsert, dkeys]
  | cons a t ih =>
    obtain ⟨ak, av⟩ := a
    by_cases hak : ak = k
    · subst hak
      simp [dinsert, dkeys_cons, List.mem_cons]
    · by_cases hmem : k ∈ dkeys t
      · simp [dinsert, hak, dkeys_cons, ih, hmem, List.mem_cons, Ne.symm hak]
      · simp [dinsert, hak, dkeys_cons, ih, hmem, List.mem_cons, Ne.symm hak]

theorem nodup_dkeys_dinsert (d : Obj) (k : String) (v : Value)
    (h : (dkeys d).Nodup) : (dkeys (dinsert d k v)).Nodup := by
  rw [dkeys_dinsert]
  by_cases hmem : k ∈ dkeys d <;> simp [hmem, h, List.Nodup.append, List.disjoint_singleton]

theorem dlookup_dmerge (a b : Obj) (key : String) (hb : (dkeys b).Nodup) :
    dlookup (dmerge a b) key = (dlookup b key).or (dlookup a key) := by
  induction b generalizing a with
  | nil => simp [dmerge, dlookup]
  | cons x t ih =>
    obtain ⟨xk, xv⟩ := x
    simp only [dkeys, List.map_cons, List.nodup_cons] at hb
    obtain ⟨hx, ht⟩ := hb
    have step : dmerge a ((xk, xv) :: t) = dmerge (dinsert a xk xv) t := by
      simp [dmerge, List.foldl_cons]
    rw [step, ih (dinsert a xk xv) ht]
    by_cases hk : xk = key
    · subst hk
      have : dlookup t xk = none := by
        rw [dlookup_eq_none_iff]
        simpa [dkeys] using hx
      simp [dlookup, this, dlookup_dinsert]
    · simp [dlookup, hk, dlookup_dinsert]

theorem nodup_dkeys_dmerge (a b : Obj) (ha : (dkeys a).Nodup) :
    (dkeys (dmerge a b)).Nodup := by
  induction b generalizing a with
  | nil => simpa [dmerge] using ha
  | cons x t ih =>
    have step : dmerge a (x :: t) = dmerge (dinsert a x.1 x.2) t := by
      simp [dmerge, List.foldl_cons]
    rw [step]
    exact ih _ (nodup_dkeys_dinsert a x.1 x.2 ha)

theorem dlookup_dpop (d : Obj) (k : String) (key : String)
    (h : (dkeys d).Nodup) :
    dlookup (dpop d k) key = if k = key then none else dlookup d key := by
  induction d with
  | nil => simp [dpop, dlookup]
  | cons a t ih =>
    obtain ⟨ak, av⟩ := a
    simp only [dkeys, List.map_cons, List.nodup_cons] at h
    obtain ⟨hak, ht⟩ := h
    by_cases hk : ak = k
    · subst hk
      by_cases hkey : ak = key
      · subst hkey
        have : dlookup t ak = none := by
          rw [dlookup_eq_none_iff]
          simpa [dkeys] using hak
        simp [dpop, dlookup, this]
      · simp [dpop, dlookup, hkey, Ne.symm hkey]
    · by_cases hkey : ak = key
      · subst hkey
        simp [dpop, dlookup, hk, Ne.symm hk]
      · simp [dpop, dlookup, hk, hkey, ih ht]

theorem dkeys_dpop_sublist (d : Obj) (k : String) :
    (dkeys (dpop d k)).Sublist (dkeys d) := by
  induction d with
  | nil => simp [dpop, dkeys]
  | cons a t ih =>
    obtain ⟨ak, av⟩ := a
    by_cases hk : ak = k
    · simp only [dpop, hk, if_pos rfl]
      exact (List.sublist_cons_self _ _)
    · simpa [dpop, dkeys, hk] using ih

theorem nodup_dkeys_dpop (d : Obj) (k : String) (h : (dkeys d).Nodup) :
    (dkeys (dpop d k)).Nodup :=
  (dkeys_dpop_sublist d k).nodup h

theorem mem_dinsert_of_ne (d : Obj) (k : String) (v : Value)
    (x : String × Value) (hx : x ∈ d) (hne : x.1 ≠ k) : x ∈ dinsert d k v := by
  induction d with
  | nil => simp at hx
  | cons a t ih =>
    obtain ⟨ak, av⟩ := a
    by_cases hak : ak = k
    · subst hak
      rcases List.mem_cons.mp hx with h | h
      · exact absurd (congrArg Prod.fst h) hne
      · simp [dinsert, List.mem_cons, h]
    · rcases List.mem_cons.mp hx with h | h
      · simp [dinsert, hak, List.mem_cons, h]
      · simp [dinsert, hak, List.mem_cons, ih h]

/-! ### Unfolding lemmas for the variable generator and backend writer -/

theorem generate_tfvars_eq (params : Obj) (cloud : String) (co cl : Obj)
    (mc : Value)
    (hco : dlookup params "common" = some (.vObj co))
    (hcl : dlookup params cloud = some (.vObj cl)) :
    generate_tfvars params cloud mc = .ok
      (if truthy mc then
        dinsert (dpop (dpop (dmerge co cl) "modules") "enabled") "module_config" mc
      else dpop (dpop (dmerge co cl) "modules") "enabled") := by
  simp only [generate_tfvars, hco, hcl]

theorem generate_tfvars_lookup_eq (co cl : Obj) (mc : Value) (key : String)
    (hnco : (dkeys co).Nodup) (hncl : (dkeys cl).Nodup) :
    dlookup
      (if truthy mc then
        dinsert (dpop (dpop (dmerge co cl) "modules") "enabled") "module_config" mc
      else dpop (dpop (dmerge co cl) "modules") "enabled") key =
      if key = "modules" ∨ key = "enabled" then none
      else if key = "module_config" ∧ truthy mc = true then some mc
      else (dlookup cl key).or (dlookup co key) := by
  have hn1 : (dkeys (dmerge co cl)).Nodup := nodup_dkeys_dmerge co cl hnco
  have hn2 : (dkeys (dpop (dmerge co cl) "modules")).Nodup :=
    nodup_dkeys_dpop _ _ hn1
  have chain : dlookup (dpop (dpop (dmerge co cl) "modules") "enabled") key =
      if key = "modules" ∨ key = "enabled" then none
      else (dlookup cl key).or (dlookup co key) := by
    rw [dlookup_dpop _ _ _ hn2, dlookup_dpop _ _ _ hn1,
      dlookup_dmerge _ _ _ hncl]
    by_cases h1 : key = "modules"
    · simp [h1]
    · by_cases h2 : key = "enabled"
      · simp [h2]
      · simp [h1, h2, Ne.symm h1, Ne.symm h2]
  by_cases htr : truthy mc = true
  · rw [if_pos htr, dlookup_dinsert]
    by_cases h0 : "module_config" = key
    · rw [if_pos h0, ← h0]
      simp [htr]
    · rw [if_neg h0, chain]
      have h0k : ¬(key = "module_config") := fun hk => h0 hk.symm
      by_cases h1 : key = "modules"
      · simp [h1]
      · by_cases h2 : key = "enabled"
        · simp [h2]
        · simp [h1, h2, h0k]
  · rw [if_neg htr, chain]
    by_cases h12 : key = "modules" ∨ key = "enabled"
    · simp [h12]
    · simp [h12, htr]

/-! ### Claim theorems -/

/--
C6: when the module directory does not exist, `run_terraform` returns a
`skipped` result with reason `path_not_found`, invokes no subprocess, and
leaves the process working directory unchanged.
-/
theorem run_terraform_missing_path (backendFileWritten : Bool)
    (ok : List String → Bool) (action : Action) (cloud module : String)
    (cwd0 : Cwd) :
    (run_terraform false backendFileWritten ok action cloud module cwd0).result.status
        = Status.skipped ∧
    (run_terraform false backendFileWritten ok action cloud module cwd0).result.reason
        = some "path_not_found" ∧
    (run_terraform false backendFileWritten ok action cloud module cwd0).steps = [] ∧
    (run_terraform false backendFileWritten ok action cloud module cwd0).cwd = cwd0 :=
  ⟨rfl, rfl, rfl, rfl⟩

/--
C5: with the module directory present, the runner executes init, validate and
the action step in that order; the first non-zero exit stops the sequence,
yields a `failed` result carrying an error description, and `success` is
returned exactly when all three steps exit zero.
-/
theorem run_terraform_step_gating (backendFileWritten : Bool)
    (ok : List String → Bool) (action : Action) (cloud module : String)
    (cwd0 : Cwd) :
    ((run_terraform true backendFileWritten ok action cloud module cwd0).result.status
        = Status.success ↔
      (ok (initCmd backendFileWritten) = true ∧ ok validateCmd = true ∧
        ok (actionCmd action) = true)) ∧
    ((run_terraform true backendFileWritten ok action cloud module cwd0).result.status
        = Status.failed ↔
      (ok (initCmd backendFileWritten) = false ∨ ok validateCmd = false ∨
        ok (actionCmd action) = false)) ∧
    ((run_terraform true backendFileWritten ok action cloud module cwd0).result.error.isSome
        ↔ (run_terraform true backendFileWritten ok action cloud module cwd0).result.status
            = Status.failed) ∧
    (run_terraform true backendFileWritten ok action cloud module cwd0).steps =
      (if ok (initCmd backendFileWritten) = false then [initCmd backendFileWritten]
       else if ok validateCmd = false then [initCmd backendFileWritten, validateCmd]
       else [initCmd backendFileWritten, validateCmd, actionCmd action]) := by
  cases hoi : ok (initCmd backendFileWritten) <;>
    cases hov : ok validateCmd <;>
      cases hoa : ok (actionCmd action) <;>
        simp [run_terraform, hoi, hov, hoa, failedResult]

/--
C2 (amended): for cloud and module names that are single normal path
components — no `/` separator, not `.` and not `..`, which holds for every
cloud of the fixed list and every ordinary module name — the working
directory after `run_terraform` equals the caller's directory on every exit
path: skipped, failed at any step, or success.  The amendment is needed
because the restoration is the fixed `os.chdir("../..")`, which only undoes
a two-component descent (see the counterexample).
-/
theorem run_terraform_restores_cwd (dirExists backendFileWritten : Bool)
    (ok : List String → Bool) (action : Action) (cloud module : String)
    (cwd0 : Cwd)
    (hc : pathComps cloud = [cloud]) (hm : pathComps module = [module])
    (hcd : cloud ≠ ".") (hcdd : cloud ≠ "..") (_hce : cloud ≠ "")
    (hmd : module ≠ ".") (hmdd : module ≠ "..") (_hme : module ≠ "") :
    (run_terraform dirExists backendFileWritten ok action cloud module cwd0).cwd
      = cwd0 := by
  cases dirExists with
  | false => rfl
  | true =>
    simp [run_terraform, hc, hm, chdirComp, hcd, hcdd, hmd, hmdd,
      List.dropLast_concat]

/--
Witness for C2 (amended) at a failing validate step of `aws/network`: the
runner starts and ends in `root/proj`.
-/
theorem run_terraform_restores_cwd_witness :
    (run_terraform true true (fun c => decide (c = initCmd true)) Action.apply
      "aws" "network" ["root", "proj"]).cwd = ["root", "proj"] :=
  run_terraform_restores_cwd true true (fun c => decide (c = initCmd true))
    Action.apply "aws" "network" ["root", "proj"] rfl rfl (by decide)
    (by decide) (by decide) (by decide) (by decide) (by decide)

/--
C2 (counterexample): a module name containing a path separator descends three
levels but the `finally` block only climbs two, so the working directory
after the call differs from the caller's: here the run starts in `root`,
the directory `aws/a/b` exists, every subprocess succeeds, and the process
ends up in `root/aws`.
-/
theorem run_terraform_cwd_counterexample :
    (run_terraform true false (fun _ => true) Action.plan "aws" "a/b"
        ["root"]).cwd = ["root", "aws"] ∧
    (run_terraform true false (fun _ => true) Action.plan "aws" "a/b"
        ["root"]).cwd ≠ ["root"] := by
  constructor
  · rfl
  · intro h
    rw [show (run_terraform true false (fun _ => true) Action.plan "aws" "a/b"
      ["root"]).cwd = ["root", "aws"] from rfl] at h
    exact absurd h (by decide)

/--
C7: when the `backend` section is absent, or present with a falsy or absent
`enabled` flag, `write_backend_config` writes no file and returns the
not-applicable indication `None` rather than an error.
-/
theorem write_backend_config_not_applicable (params : Obj)
    (cloud module env : String)
    (h : dlookup params "backend" = none ∨
      ∃ b, dlookup params "backend" = some (.vObj b) ∧
        truthy (dgetD b "enabled" (.vBool false)) = false) :
    write_backend_config params cloud module env = .ok none := by
  rcases h with h | ⟨b, hb, he⟩
  · simp [write_backend_config, h, dgetD, dlookup, truthy]
  · simp [write_backend_config, hb, he]

/-- Witness for C7 at a configuration with no `backend` section. -/
theorem write_backend_config_not_applicable_witness :
    write_backend_config [("common", .vObj [])] "aws" "network" "dev"
      = .ok none :=
  write_backend_config_not_applicable [("common", .vObj [])] "aws" "network"
    "dev" (Or.inl rfl)

/--
C9: the recorded exit behaviour of `print_summary` is non-zero (namely 1)
exactly when some recorded result has status `failed`, and 0 exactly when no
result does — in particular for an empty result collection; and whenever a
run of `orchestrate` reaches the summary, its exit code is exactly
`print_summary` of its recorded results.
-/
theorem exit_code_reflects_failures :
    (∀ results : List (String × TfResult),
      (print_summary results = 0 ↔ ∀ r ∈ results, r.2.status ≠ Status.failed) ∧
      (print_summary results = 1 ↔ ∃ r ∈ results, r.2.status = Status.failed)) ∧
    (∀ (params : Obj) (env : String) (action : Action)
        (selClouds selModules : Option (List String)) (fs : List String)
        (orc : String → String → List String → Bool) (cwd0 : Cwd),
      ((orchestrate params env action selClouds selModules fs orc cwd0).summaryPrinted
          = false ∧ (∃ e, (orchestrate params env action selClouds selModules fs orc
            cwd0).outcome = .uncaught e)) ∨
      ((orchestrate params env action selClouds selModules fs orc cwd0).summaryPrinted
          = true ∧
        (orchestrate params env action selClouds selModules fs orc cwd0).outcome =
          .normal (print_summary
            (orchestrate params env action selClouds selModules fs orc cwd0).results))) := by
  constructor
  · intro results
    have key : (0 < results.countP fun r => decide (r.2.status = Status.failed)) ↔
        ∃ r ∈ results, r.2.status = Status.failed := by
      rw [List.countP_pos_iff]
      simp
    constructor
    · rw [print_summary]
      by_cases h : 0 < results.countP fun r => decide (r.2.status = Status.failed)
      · rw [if_pos h]
        rw [key] at h
        constructor
        · intro h10
          exact absurd h10 one_ne_zero
        · intro hall
          obtain ⟨r, hr, hst⟩ := h
          exact absurd hst (hall r hr)
      · rw [if_neg h]
        rw [key] at h
        push_neg at h
        exact iff_of_true rfl h
    · rw [print_summary]
      by_cases h : 0 < results.countP fun r => decide (r.2.status = Status.failed)
      · rw [if_pos h]
        rw [key] at h
        exact iff_of_true rfl h
      · rw [if_neg h]
        rw [key] at h
        constructor
        · intro h01
          exact absurd h01 zero_ne_one
        · intro hex
          exact absurd hex h
  · intro params env action selClouds selModules fs orc cwd0
    rcases hfold : (["aws", "azure", "gcp"].foldlM
        (processCloud params env action selClouds selModules fs orc)
        (⟨[], [], cwd0⟩ : OState) : Except (PyError × OState) OState) with es | st
    · exact Or.inl (by simp [orchestrate, hfold])
    · exact Or.inr (by simp [orchestrate, hfold])

/--
C4: with `common` and the cloud section present (as mappings, whose keys are
unique as in any Python dict), `generate_tfvars` returns exactly the shallow
merge of `common` then the cloud-scoped variables — the cloud value winning
on every conflicting key — with the keys `modules` and `enabled` removed and
the module configuration inserted under `module_config` exactly when it is
non-empty; in particular the result never contains `modules` or `enabled`.
-/
theorem generate_tfvars_spec (params : Obj) (cloud : String) (co cl mc : Obj)
    (hco : dlookup params "common" = some (.vObj co))
    (hcl : dlookup params cloud = some (.vObj cl))
    (hnco : (dkeys co).Nodup) (hncl : (dkeys cl).Nodup) :
    ∃ t, generate_tfvars params cloud (.vObj mc) = .ok t ∧
      ∀ key, dlookup t key =
        if key = "modules" ∨ key = "enabled" then none
        else if key = "module_config" ∧ mc.isEmpty = false then some (.vObj mc)
        else (dlookup cl key).or (dlookup co key) := by
  refine ⟨_, generate_tfvars_eq params cloud co cl (.vObj mc) hco hcl, ?_⟩
  intro key
  rw [generate_tfvars_lookup_eq co cl (.vObj mc) key hnco hncl]
  have htr : truthy (.vObj mc) = !mc.isEmpty := rfl
  by_cases h12 : key = "modules" ∨ key = "enabled"
  · simp [h12]
  · by_cases hmc : mc.isEmpty
    · simp [h12, hmc, htr]
    · simp only [Bool.not_eq_true] at hmc
      simp [h12, hmc, htr]

/--
Witness for C4 at the merge example of the specification: common keys
`a = 1, b = 2` against cloud keys `b = 3, c = 4` plus the metadata keys,
with an empty module configuration.
-/
theorem generate_tfvars_spec_witness :
    ∃ t, generate_tfvars
        [("common", .vObj [("a", .vInt 1), ("b", .vInt 2)]),
         ("aws", .vObj [("b", .vInt 3), ("c", .vInt 4), ("enabled", .vBool true),
                        ("modules", .vObj [("network", .vObj [])])])]
        "aws" (.vObj []) = .ok t ∧
      ∀ key, dlookup t key =
        if key = "modules" ∨ key = "enabled" then none
        else if key = "module_config" ∧ ([] : Obj).isEmpty = false then some (.vObj [])
        else (dlookup [("b", .vInt 3), ("c", .vInt 4), ("enabled", .vBool true),
          ("modules", .vObj [("network", .vObj [])])] key).or
          (dlookup [("a", .vInt 1), ("b", .vInt 2)] key) :=
  generate_tfvars_spec _ "aws"
    [("a", .vInt 1), ("b", .vInt 2)]
    [("b", .vInt 3), ("c", .vInt 4), ("enabled", .vBool true),
     ("modules", .vObj [("network", .vObj [])])]
    [] rfl rfl (by decide) (by decide)

/-- A `key = "..."` line is among the rendered backend lines whenever the
descriptor holds the corresponding entry. -/
theorem key_line_mem (hcl : Obj) (sk : String)
    (hmem : ("key", Value.vStr sk) ∈ hcl) :
    ("key = \"" ++ sk ++ "\"") ∈ renderBackend hcl := by
  have h := List.mem_map_of_mem
    (fun kv : String × Value => renderLine kv.1 kv.2) hmem
  simpa [renderBackend, renderLine, pyStr] using h

/--
C3 (amended): whenever the backend section is enabled and holds the mandatory
bucket and region, the backend file written for a (cloud, module) pair
contains a key line whose value is exactly `{cloud}/{environment}/terraform.tfstate`
— the state path is scoped per cloud and environment only; the module name
appears in the file path but not in the state key (see the counterexample
against the per-module key of the claim).
-/
theorem backend_state_key_per_cloud (params b : Obj) (cloud module env : String)
    (hb : dlookup params "backend" = some (.vObj b))
    (hen : truthy (dgetD b "enabled" (.vBool false)) = true)
    (hbu : ∃ bv, dlookup b "s3_bucket" = some bv)
    (hre : ∃ rv, dlookup b "s3_region" = some rv) :
    ∃ path hcl, write_backend_config params cloud module env
        = .ok (some (path, hcl)) ∧
      path = cloud ++ "/" ++ module ++ "/backend.hcl" ∧
      dlookup hcl "key" = some (.vStr (cloud ++ "/" ++ env ++ "/terraform.tfstate")) ∧
      ("key = \"" ++ (cloud ++ "/" ++ env ++ "/terraform.tfstate") ++ "\"")
        ∈ renderBackend hcl := by
  obtain ⟨bv, hbv⟩ := hbu
  obtain ⟨rv, hrv⟩ := hre
  simp only [write_backend_config, hb, hen, hbv, hrv, if_pos]
  rcases hd : dlookup b "dynamodb_table" with _ | dv <;>
    rcases hp : dlookup b "profile" with _ | pv <;>
      rcases hk : dlookup b "kms_key_id" with _ | kv <;>
        refine ⟨_, _, rfl, rfl, by simp [dinsert, dlookup], ?_⟩ <;>
          (apply key_line_mem; simp [dinsert])

/--
Witness for C3 (amended) at `sampleParams`: the `aws/network` module of
environment `dev` gets key `aws/dev/terraform.tfstate`.
-/
theorem backend_state_key_per_cloud_witness :
    ∃ path hcl, write_backend_config sampleParams "aws" "network" "dev"
        = .ok (some (path, hcl)) ∧
      path = "aws" ++ "/" ++ "network" ++ "/backend.hcl" ∧
      dlookup hcl "key" = some (.vStr ("aws" ++ "/" ++ "dev" ++ "/terraform.tfstate")) ∧
      ("key = \"" ++ ("aws" ++ "/" ++ "dev" ++ "/terraform.tfstate") ++ "\"")
        ∈ renderBackend hcl :=
  backend_state_key_per_cloud sampleParams
    [("enabled", .vBool true), ("s3_bucket", .vStr "tf-state"),
     ("s3_region", .vStr "us-east-1"), ("profile", .vStr "dev-profile")]
    "aws" "network" "dev" rfl rfl ⟨.vStr "tf-state", rfl⟩ ⟨.vStr "us-east-1", rfl⟩

/--
C3 (counterexample): the claim demands a key line with value
`{cloud}/{environment}/{module}/terraform.tfstate`; at `sampleParams`,
cloud `aws`, module `network`, environment `dev`, the code instead produces
the key `aws/dev/terraform.tfstate`, and no line of the written file carries
the claimed per-module value `aws/dev/network/terraform.tfstate`.
-/
theorem backend_state_key_counterexample :
    write_backend_config sampleParams "aws" "network" "dev" =
      .ok (some ("aws/network/backend.hcl",
        [("bucket", .vStr "tf-state"),
         ("key", .vStr "aws/dev/terraform.tfstate"),
         ("region", .vStr "us-east-1"),
         ("encrypt", .vBool true),
         ("workspace_key_prefix", .vStr "aws/dev"),
         ("profile", .vStr "dev-profile")])) ∧
    "key = \"aws/dev/network/terraform.tfstate\"" ∉ renderBackend
        [("bucket", .vStr "tf-state"),
         ("key", .vStr "aws/dev/terraform.tfstate"),
         ("region", .vStr "us-east-1"),
         ("encrypt", .vBool true),
         ("workspace_key_prefix", .vStr "aws/dev"),
         ("profile", .vStr "dev-profile")] ∧
    "key = \"aws/dev/terraform.tfstate\"" ∈ renderBackend
        [("bucket", .vStr "tf-state"),
         ("key", .vStr "aws/dev/terraform.tfstate"),
         ("region", .vStr "us-east-1"),
         ("encrypt", .vBool true),
         ("workspace_key_prefix", .vStr "aws/dev"),
         ("profile", .vStr "dev-profile")] :=
  ⟨rfl, by decide, by decide⟩

/--
C1 (counterexample): the source performs no automated-pipeline detection at
all.  With the generic CI signal set truthy in the environment, the
credential-profile key configured in `common` and in `backend` of
`sampleParams` still appears in the variable mapping produced by
`generate_tfvars` and in the backend descriptor written by
`write_backend_config`, so the claimed omission does not happen.
-/
theorem profile_stripping_counterexample :
    ciDetected [("CI", "true")] = true ∧
    generate_tfvars sampleParams "aws" (.vObj []) =
      .ok [("region", .vStr "us-east-1"), ("profile", .vStr "dev-profile"),
           ("instance_type", .vStr "t3.micro")] ∧
    write_backend_config sampleParams "aws" "network" "dev" =
      .ok (some ("aws/network/backend.hcl",
        [("bucket", .vStr "tf-state"),
         ("key", .vStr "aws/dev/terraform.tfstate"),
         ("region", .vStr "us-east-1"),
         ("encrypt", .vBool true),
         ("workspace_key_prefix", .vStr "aws/dev"),
         ("profile", .vStr "dev-profile")])) :=
  ⟨rfl, rfl, rfl⟩

/--
C1 (amended): the generated outputs do not depend on any pipeline
environment signal — there is no detection in the code — and the
credential-profile key is retained rather than stripped: whenever the backend
section is enabled with its mandatory keys and configures a profile, the
backend descriptor carries that profile verbatim, and whenever the cloud
section carries a profile key, the variable mapping produced by
`generate_tfvars` carries it too (for any process environment `environ`).
-/
theorem profile_retained_regardless_of_signals
    (environ : List (String × String)) (params b co cl : Obj)
    (cloud module env : String) (pv qv mc : Value)
    (hb : dlookup params "backend" = some (.vObj b))
    (hen : truthy (dgetD b "enabled" (.vBool false)) = true)
    (hbu : ∃ bv, dlookup b "s3_bucket" = some bv)
    (hre : ∃ rv, dlookup b "s3_region" = some rv)
    (hpr : dlookup b "profile" = some pv)
    (hco : dlookup params "common" = some (.vObj co))
    (hcl : dlookup params cloud = some (.vObj cl))
    (hnco : (dkeys co).Nodup) (hncl : (dkeys cl).Nodup)
    (hq : (dlookup cl "profile").or (dlookup co "profile") = some qv) :
    (∃ path hcl2, write_backend_config params cloud module env
        = .ok (some (path, hcl2)) ∧ dlookup hcl2 "profile" = some pv) ∧
    (∃ t, generate_tfvars params cloud mc = .ok t ∧
      dlookup t "profile" = some qv) := by
  constructor
  · obtain ⟨bv, hbv⟩ := hbu
    obtain ⟨rv, hrv⟩ := hre
    simp only [write_backend_config, hb, hen, hbv, hrv, if_pos]
    rcases hd : dlookup b "dynamodb_table" with _ | dv <;>
      rcases hk : dlookup b "kms_key_id" with _ | kv <;>
        simp only [hpr] <;>
          exact ⟨_, _, rfl, by simp [dinsert, dlookup]⟩
  · refine ⟨_, generate_tfvars_eq params cloud co cl mc hco hcl, ?_⟩
    rw [generate_tfvars_lookup_eq co cl mc "profile" hnco hncl]
    simp [hq]

/--
Witness for C1 (amended) at `sampleParams` with the CI signal set: the
profile `dev-profile` appears in the backend descriptor and in the generated
variable mapping.
-/
theorem profile_retained_regardless_of_signals_witness :
    (∃ path hcl2, write_backend_config sampleParams "aws" "network" "dev"
        = .ok (some (path, hcl2)) ∧
      dlookup hcl2 "profile" = some (.vStr "dev-profile")) ∧
    (∃ t, generate_tfvars sampleParams "aws" (.vObj []) = .ok t ∧
      dlookup t "profile" = some (.vStr "dev-profile")) :=
  profile_retained_regardless_of_signals [("CI", "true")] sampleParams
    [("enabled", .vBool true), ("s3_bucket", .vStr "tf-state"),
     ("s3_region", .vStr "us-east-1"), ("profile", .vStr "dev-profile")]
    [("region", .vStr "us-east-1"), ("profile", .vStr "dev-profile")]
    [("enabled", .vBool true), ("instance_type", .vStr "t3.micro"),
     ("modules", .vObj [("network", .vObj [])])]
    "aws" "network" "dev" (.vStr "dev-profile") (.vStr "dev-profile")
    (.vObj []) rfl rfl ⟨.vStr "tf-state", rfl⟩ ⟨.vStr "us-east-1", rfl⟩ rfl
    rfl rfl (by decide) (by decide) rfl

/--
C8: when the `environments` mapping of the parameters document lacks the
requested environment name, the run fails with the `EnvironmentNotFound`
error (`ValueError` in the code) before any orchestration begins: no file is
written, no result is recorded, and no summary is printed.
-/
theorem missing_environment_aborts (data envs : Obj) (env : String)
    (action : Action) (selClouds selModules : Option (List String))
    (fs : List String) (orc : String → String → List String → Bool)
    (cwd0 : Cwd)
    (hd : dlookup data "environments" = some (.vObj envs))
    (he : dlookup envs env = none) :
    runOrchestrator (.vObj data) env action selClouds selModules fs orc cwd0 =
      ⟨[], [], false, .uncaught (.environmentNotFound env), cwd0⟩ := by
  simp [runOrchestrator, load_parameters, hd, he]

/-- Witness for C8: requesting environment `prod` from a document that only
defines `dev`. -/
theorem missing_environment_aborts_witness :
    runOrchestrator
      (.vObj [("environments", .vObj [("dev", .vObj sampleParams)])])
      "prod" Action.plan none none [] (fun _ _ _ => true) ["root"] =
      ⟨[], [], false, .uncaught (.environmentNotFound "prod"), ["root"]⟩ :=
  missing_environment_aborts [("environments", .vObj [("dev", .vObj sampleParams)])]
    [("dev", .vObj sampleParams)] "prod" Action.plan none none []
    (fun _ _ _ => true) ["root"] rfl rfl

/--
C10: with the backend section enabled but missing `s3_bucket` (or having it
but missing `s3_region`), the first processed module raises an uncaught
`KeyError` that aborts the whole orchestration: no per-module `failed`
result is recorded for that or any later module, the summary is never
printed, yet the variable file of the current module has already been
written.  (Stated for a run without filters whose first processed cloud is
`aws`, enabled and holding at least one module.)
-/
theorem backend_missing_key_aborts_run (params co cc bc : Obj) (m : String)
    (mcfg : Value) (rest : List (String × Value)) (env : String)
    (action : Action) (fs : List String)
    (orc : String → String → List String → Bool) (cwd0 : Cwd)
    (hco : dlookup params "common" = some (.vObj co))
    (haws : dlookup params "aws" = some (.vObj cc))
    (hen : truthy (dgetD cc "enabled" (.vBool true)) = true)
    (hmods : dlookup cc "modules" = some (.vObj ((m, mcfg) :: rest)))
    (hb : dlookup params "backend" = some (.vObj bc))
    (hbe : truthy (dgetD bc "enabled" (.vBool false)) = true)
    (hmiss : dlookup bc "s3_bucket" = none ∨
      (∃ bv, dlookup bc "s3_bucket" = some bv ∧ dlookup bc "s3_region" = none)) :
    ∃ t, generate_tfvars params "aws" mcfg = .ok t ∧
      orchestrate params env action none none fs orc cwd0 =
        ⟨[("aws/" ++ m ++ "/terraform.tfvars.json", .json t)], [], false,
          .uncaught .keyError, cwd0⟩ := by
  have hwb : write_backend_config params "aws" m env = .error .keyError := by
    rcases hmiss with h | ⟨bv, hbv, hrn⟩
    · simp [write_backend_config, hb, hbe, h]
    · simp [write_backend_config, hb, hbe, hbv, hrn]
  refine ⟨_, generate_tfvars_eq params "aws" co cc mcfg hco haws, ?_⟩
  have hpm : processModule params env action none fs orc "aws"
      ⟨[], [], cwd0⟩ (m, mcfg) =
      .error (.keyError,
        ⟨[("aws/" ++ m ++ "/terraform.tfvars.json",
          .json (if truthy mcfg then
            dinsert (dpop (dpop (dmerge co cc) "modules") "enabled")
              "module_config" mcfg
          else dpop (dpop (dmerge co cc) "modules") "enabled"))], [], cwd0⟩) := by
    simp only [processModule, filteredOut,
      generate_tfvars_eq params "aws" co cc mcfg hco haws, hwb]
    rfl
  have hpc : processCloud params env action none none fs orc
      ⟨[], [], cwd0⟩ "aws" =
      .error (.keyError,
        ⟨[("aws/" ++ m ++ "/terraform.tfvars.json",
          .json (if truthy mcfg then
            dinsert (dpop (dpop (dmerge co cc) "modules") "enabled")
              "module_config" mcfg
          else dpop (dpop (dmerge co cc) "modules") "enabled"))], [], cwd0⟩) := by
    have hen2 : (!truthy (dgetD cc "enabled" (Value.vBool true))) = false := by
      rw [hen]
      rfl
    have hm2 : dgetD cc "modules" (Value.vObj []) = Value.vObj ((m, mcfg) :: rest) := by
      simp [dgetD, hmods]
    simp only [processCloud, filteredOut, haws, hen2, Bool.false_eq_true,
      if_false, hm2, normalizeModules, List.foldlM_cons, hpm]
    rfl
  simp only [orchestrate, List.foldlM_cons, hpc]
  rfl

/-- Witness for C10: backend enabled with a bucket but no region; the run
aborts at `aws/network` right after writing its variable file. -/
theorem backend_missing_key_aborts_run_witness :
    ∃ t, generate_tfvars
        [("common", .vObj [("region", .vStr "us-east-1")]),
         ("aws", .vObj [("modules", .vObj [("network", .vObj []),
           ("compute", .vObj [])])]),
         ("backend", .vObj [("enabled", .vBool true),
           ("s3_bucket", .vStr "tf-state")])]
        "aws" (.vObj []) = .ok t ∧
      orchestrate
        [("common", .vObj [("region", .vStr "us-east-1")]),
         ("aws", .vObj [("modules", .vObj [("network", .vObj []),
           ("compute", .vObj [])])]),
         ("backend", .vObj [("enabled", .vBool true),
           ("s3_bucket", .vStr "tf-state")])]
        "dev" Action.plan none none ["aws/network"] (fun _ _ _ => true)
        ["root"] =
        ⟨[("aws/" ++ "network" ++ "/terraform.tfvars.json", .json t)], [],
          false, .uncaught .keyError, ["root"]⟩ :=
  backend_missing_key_aborts_run
    [("common", .vObj [("region", .vStr "us-east-1")]),
     ("aws", .vObj [("modules", .vObj [("network", .vObj []),
       ("compute", .vObj [])])]),
     ("backend", .vObj [("enabled", .vBool true),
       ("s3_bucket", .vStr "tf-state")])]
    [("region", .vStr "us-east-1")]
    [("modules", .vObj [("network", .vObj []), ("compute", .vObj [])])]
    [("enabled", .vBool true), ("s3_bucket", .vStr "tf-state")]
    "network" (.vObj []) [("compute", .vObj [])] "dev" Action.plan
    ["aws/network"] (fun _ _ _ => true) ["root"] rfl rfl rfl rfl rfl rfl
    (Or.inr ⟨.vStr "tf-state", rfl, rfl⟩)

end Orchestrator
